import Mathlib

/-!
Shallow embedding of the employee search system of
`src/similarity_employeedata.py` (class `EmployeeSearchSystem` and the
demo driver `run_comprehensive_demo`).

The external vector/metadata store (ChromaDB) is not part of the
repository; it is modelled from the contract the specification documents
for it (operations `deleteCollection`, `createCollection`,
`collection.add`, `collection.query`, `collection.get`, and the metadata
predicate DSL with equality, comparison, set membership and conjunction).
Similarity ranking is opaque: queries are parametrised by an arbitrary
distance function. Store-side failures are modelled by a fault-injection
record `StoreBehavior`; exceptions of the Python code are modelled by
`Except` values, and every `try/except` of the source becomes an explicit
`match` on them, so every embedded operation is a total function.
-/

namespace EmployeeSearch

/-- An employee record, with the fields of the Python dataset dictionaries
built by `EmployeeSearchSystem._get_employee_data`. -/
structure Employee where
  id : String
  name : String
  experience : Int
  department : String
  role : String
  skills : String
  location : String
  employment_type : String
deriving Repr, DecidableEq

/-- The fixed 15-record dataset returned by
`EmployeeSearchSystem._get_employee_data` (source lines 36-187). -/
def employeesData : List Employee := [
  { id := "employee_1", name := "John Doe", experience := 5,
    department := "Engineering", role := "Software Engineer",
    skills := "Python, JavaScript, React, Node.js, databases",
    location := "New York", employment_type := "Full-time" },
  { id := "employee_2", name := "Jane Smith", experience := 8,
    department := "Marketing", role := "Marketing Manager",
    skills := "Digital marketing, SEO, content strategy, analytics, social media",
    location := "Los Angeles", employment_type := "Full-time" },
  { id := "employee_3", name := "Alice Johnson", experience := 3,
    department := "HR", role := "HR Coordinator",
    skills := "Recruitment, employee relations, HR policies, training programs",
    location := "Chicago", employment_type := "Full-time" },
  { id := "employee_4", name := "Michael Brown", experience := 12,
    department := "Engineering", role := "Senior Software Engineer",
    skills := "Java, Spring Boot, microservices, cloud architecture, DevOps",
    location := "San Francisco", employment_type := "Full-time" },
  { id := "employee_5", name := "Emily Wilson", experience := 2,
    department := "Marketing", role := "Marketing Assistant",
    skills := "Content creation, email marketing, market research, social media management",
    location := "Austin", employment_type := "Part-time" },
  { id := "employee_6", name := "David Lee", experience := 15,
    department := "Engineering", role := "Engineering Manager",
    skills := "Team leadership, project management, software architecture, mentoring",
    location := "Seattle", employment_type := "Full-time" },
  { id := "employee_7", name := "Sarah Clark", experience := 8,
    department := "HR", role := "HR Manager",
    skills := "Performance management, compensation planning, policy development, conflict resolution",
    location := "Boston", employment_type := "Full-time" },
  { id := "employee_8", name := "Chris Evans", experience := 20,
    department := "Engineering", role := "Senior Architect",
    skills := "System design, distributed systems, cloud platforms, technical strategy",
    location := "New York", employment_type := "Full-time" },
  { id := "employee_9", name := "Jessica Taylor", experience := 4,
    department := "Marketing", role := "Marketing Specialist",
    skills := "Brand management, advertising campaigns, customer analytics, creative strategy",
    location := "Miami", employment_type := "Full-time" },
  { id := "employee_10", name := "Alex Rodriguez", experience := 18,
    department := "Engineering", role := "Lead Software Engineer",
    skills := "Full-stack development, React, Python, machine learning, data science",
    location := "Denver", employment_type := "Full-time" },
  { id := "employee_11", name := "Hannah White", experience := 6,
    department := "HR", role := "HR Business Partner",
    skills := "Strategic HR, organizational development, change management, employee engagement",
    location := "Portland", employment_type := "Full-time" },
  { id := "employee_12", name := "Kevin Martinez", experience := 10,
    department := "Engineering", role := "DevOps Engineer",
    skills := "Docker, Kubernetes, AWS, CI/CD pipelines, infrastructure automation",
    location := "Phoenix", employment_type := "Full-time" },
  { id := "employee_13", name := "Rachel Brown", experience := 7,
    department := "Marketing", role := "Marketing Director",
    skills := "Strategic marketing, team leadership, budget management, campaign optimization",
    location := "Atlanta", employment_type := "Full-time" },
  { id := "employee_14", name := "Matthew Garcia", experience := 3,
    department := "Engineering", role := "Junior Software Engineer",
    skills := "JavaScript, HTML/CSS, basic backend development, learning frameworks",
    location := "Dallas", employment_type := "Full-time" },
  { id := "employee_15", name := "Olivia Moore", experience := 12,
    department := "Engineering", role := "Principal Engineer",
    skills := "Technical leadership, system architecture, performance optimization, mentoring",
    location := "San Francisco", employment_type := "Full-time" }]

/-- A metadata value: ChromaDB metadata values here are strings or
integers (the `experience` field). -/
inductive MetaValue where
  | str (s : String)
  | int (n : Int)
deriving Repr, DecidableEq

/-- Metadata attached to one stored document: an association list from
field name to value, as built literally in `initialize_collection`. -/
abbrev Metadata : Type := List (String × MetaValue)

/-- Modelled from the spec: the metadata predicate DSL of the external
store — equality, comparison `$gte`, set membership `$in`, and
conjunction `$and` over a list of predicates. -/
inductive MetaFilter where
  | eq (field : String) (v : MetaValue)
  | gte (field : String) (n : Int)
  | inList (field : String) (vs : List MetaValue)
  | and (fs : List MetaFilter)
deriving Repr

/-- Look a field up in a metadata association list. -/
def lookupMeta (m : Metadata) (field : String) : Option MetaValue :=
  (m.find? (fun kv => kv.1 = field)).map (fun kv => kv.2)

mutual

/-- Modelled from the spec: whether a metadata record satisfies a
predicate of the store DSL. A missing field satisfies no predicate;
`$gte` compares integers. -/
def matchesFilter : MetaFilter → Metadata → Bool
  | .eq field v, m => lookupMeta m field = some v
  | .gte field n, m =>
      match lookupMeta m field with
      | some (.int k) => n ≤ k
      | _ => false
  | .inList field vs, m =>
      match lookupMeta m field with
      | some v => vs.contains v
      | none => false
  | .and fs, m => matchesAll fs m

/-- Conjunction over a list of predicates. -/
def matchesAll : List MetaFilter → Metadata → Bool
  | [], _ => true
  | f :: fs, m => matchesFilter f m && matchesAll fs m

end

/-- One stored (id, document, metadata) triple of a collection. -/
structure ChromaEntry where
  id : String
  document : String
  metadata : Metadata
deriving Repr

/-- Modelled from the spec: a named collection of (id, document,
metadata) triples, with the creation-time collection metadata. -/
structure ChromaCollection where
  name : String
  collMeta : List (String × String)
  entries : List ChromaEntry
deriving Repr

/-- The in-memory store client: the list of existing collections. -/
abbrev ChromaClient : Type := List ChromaCollection

/-- Fault injection for the external store: which of the three store
calls used by `initialize_collection` raises. -/
structure StoreBehavior where
  deleteFails : Bool
  createFails : Bool
  addFails : Bool
deriving Repr, DecidableEq

/-- The fault-free store behavior. -/
def okStore : StoreBehavior :=
  { deleteFails := false, createFails := false, addFails := false }

/-- Modelled from the spec: `deleteCollection(name)` — removes the
named collection; raises (returns `.error`) when the collection does not
exist, or when a store fault is injected. -/
def deleteCollection (b : StoreBehavior) (client : ChromaClient)
    (name : String) : Except String ChromaClient :=
  if b.deleteFails then .error "store error"
  else if client.any (fun c => c.name = name) then
    .ok (client.filter (fun c => c.name ≠ name))
  else .error "collection not found"

/-- Modelled from the spec: `createCollection(name, embeddingFn,
metadata)` — adds a fresh empty collection; raises on an injected store
fault or when a collection of that name already exists. -/
def createCollection (b : StoreBehavior) (client : ChromaClient)
    (name : String) (collMeta : List (String × String)) :
    Except String ChromaClient :=
  if b.createFails then .error "store error"
  else if client.any (fun c => c.name = name) then
    .error "collection already exists"
  else .ok (client ++ [{ name := name, collMeta := collMeta, entries := [] }])

/-- Modelled from the spec: `collection.add(ids, documents, metadatas)` —
the atomic bulk insert of parallel arrays into the named collection;
raises on an injected store fault, inserting nothing. -/
def collectionAdd (b : StoreBehavior) (client : ChromaClient)
    (name : String) (newEntries : List ChromaEntry) :
    Except String ChromaClient :=
  if b.addFails then .error "store error"
  else .ok (client.map (fun c =>
    if c.name = name then { c with entries := c.entries ++ newEntries } else c))

/-- Find a collection by name in the client. -/
def lookupCollection (client : ChromaClient) (name : String) :
    Option ChromaCollection :=
  client.find? (fun c => c.name = name)

/-- The state of an `EmployeeSearchSystem` instance: the configured
collection name, the store client, the collection handle (`None` until
`initialize_collection` creates a collection), and the dataset held in
`self.employees_data`. -/
structure SystemState where
  collection_name : String
  client : ChromaClient
  collection : Option String
  employees_data : List Employee

/-- A freshly constructed `EmployeeSearchSystem` with the given
collection name: empty store, no collection handle, the fixed dataset
(`__init__`, source lines 24-32). -/
def freshSystem (cname : String) : SystemState :=
  { collection_name := cname, client := [], collection := none,
    employees_data := employeesData }

/-- The default-constructed system (`collection_name =
"employee_collection"`). -/
def defaultSystem : SystemState := freshSystem "employee_collection"

/-- The document text derived from one employee record — the template of
`_create_employee_documents` (source lines 193-197). -/
def employeeDocument (e : Employee) : String :=
  e.role ++ " with " ++ toString e.experience ++ " years of experience in "
    ++ e.department ++ ". Skills: " ++ e.skills ++ ". Located in "
    ++ e.location ++ ". Employment type: " ++ e.employment_type ++ "."

/-- `_create_employee_documents`: one document string per record, in
dataset order (source lines 189-199). -/
def createEmployeeDocuments (data : List Employee) : List String :=
  data.map employeeDocument

/-- The metadata dictionary submitted for one employee record in
`initialize_collection` (source lines 226-233): exactly the keys name,
department, role, experience, location, employment_type. -/
def employeeMetadata (e : Employee) : Metadata :=
  [("name", .str e.name), ("department", .str e.department),
   ("role", .str e.role), ("experience", .int e.experience),
   ("location", .str e.location), ("employment_type", .str e.employment_type)]

/-- The (id, document, metadata) triples bulk-inserted by
`initialize_collection` (source lines 223-234), in dataset order. -/
def employeeEntries (data : List Employee) : List ChromaEntry :=
  data.map (fun e =>
    { id := e.id, document := employeeDocument e,
      metadata := employeeMetadata e })

/-- The collection metadata passed to `create_collection` (source
line 215). -/
def employeeCollMeta : List (String × String) :=
  [("description", "A collection for storing employee data")]

/-- The delete step of `initialize_collection` (source lines 205-209):
the inner `try/except: pass` swallows every delete error, leaving the
client unchanged when the call raises. -/
def afterDeleteStep (b : StoreBehavior) (client : ChromaClient)
    (name : String) : ChromaClient :=
  match deleteCollection b client name with
  | .ok c => c
  | .error _ => client

/-- `initialize_collection` (source lines 201-241): deletes any existing
same-named collection with all delete errors swallowed, creates a new
collection and stores its handle, then bulk-inserts the dataset; returns
`false` (never raises) when create or add fails — note the handle is
already set when the bulk insert fails — and `true` on success. -/
def initializeCollection (b : StoreBehavior) (st : SystemState) :
    Bool × SystemState :=
  match createCollection b (afterDeleteStep b st.client st.collection_name)
      st.collection_name employeeCollMeta with
  | .error _ =>
    (false, { st with client := afterDeleteStep b st.client st.collection_name })
  | .ok client2 =>
    match collectionAdd b client2 st.collection_name
        (employeeEntries st.employees_data) with
    | .error _ =>
      (false,
       { st with client := client2, collection := some st.collection_name })
    | .ok client3 =>
      (true,
       { st with client := client3, collection := some st.collection_name })

/-- The entries of a collection satisfying an optional predicate
(`where=None` keeps everything). -/
def filterEntries (entries : List ChromaEntry) (filters : Option MetaFilter) :
    List ChromaEntry :=
  match filters with
  | none => entries
  | some f => entries.filter (fun e => matchesFilter f e.metadata)

/-- The result shape of `collection.get`: parallel arrays of ids,
documents and metadatas, no distances. -/
structure GetResult where
  ids : List String
  documents : List String
  metadatas : List Metadata
deriving Repr

/-- The result shape of `collection.query`: parallel arrays including
distance scores. -/
structure QueryResult where
  ids : List String
  documents : List String
  metadatas : List Metadata
  distances : List Nat
deriving Repr

/-- Modelled from the spec: `collection.get(where)` — the unranked
entries matching the predicate, in insertion order, without
distances. -/
def collectionGet (coll : ChromaCollection) (filters : Option MetaFilter) :
    GetResult :=
  let matching := filterEntries coll.entries filters
  { ids := matching.map (fun e => e.id),
    documents := matching.map (fun e => e.document),
    metadatas := matching.map (fun e => e.metadata) }

/-- Modelled from the spec: `collection.query(queryTexts, nResults,
where)` — the entries matching the predicate, ranked by an opaque
embedding distance to the query text, truncated to `nResults`. -/
def collectionQuery (dist : String → String → Nat) (coll : ChromaCollection)
    (query : String) (nResults : Nat) (filters : Option MetaFilter) :
    QueryResult :=
  let matching := filterEntries coll.entries filters
  let ranked := (List.insertionSort
    (fun a b : ChromaEntry => dist query a.document ≤ dist query b.document)
    matching).take nResults
  { ids := ranked.map (fun e => e.id),
    documents := ranked.map (fun e => e.document),
    metadatas := ranked.map (fun e => e.metadata),
    distances := ranked.map (fun e => dist query e.document) }

/-- `similarity_search(query, n_results=5, filters=None)` (source lines
243-269): returns `none` when the collection handle is unset (or on a
store-side error), otherwise the ranked, optionally filtered query
result. -/
def similaritySearch (dist : String → String → Nat) (st : SystemState)
    (query : String) (nResults : Nat) (filters : Option MetaFilter) :
    Option QueryResult :=
  match st.collection with
  | none => none
  | some cname =>
    match lookupCollection st.client cname with
    | none => none
    | some coll => some (collectionQuery dist coll query nResults filters)

/-- `metadata_filter_search(filters)` (source lines 271-290): returns
`none` when the collection handle is unset (or on a store-side error),
otherwise the unranked entries matching the predicate. -/
def metadataFilterSearch (st : SystemState) (filters : MetaFilter) :
    Option GetResult :=
  match st.collection with
  | none => none
  | some cname =>
    match lookupCollection st.client cname with
    | none => none
    | some coll => some (collectionGet coll (some filters))

/-- Modelled from the spec: the document template as the specification
states it, assembled piecewise — role, years of experience, department,
skills, location, employment type. Compared against `employeeDocument`,
which is translated from the source. -/
def specTemplateDocument (e : Employee) : String :=
  e.role ++ (" with " ++ (toString e.experience
    ++ (" years of experience in " ++ (e.department
    ++ (". Skills: " ++ (e.skills
    ++ (". Located in " ++ (e.location
    ++ (". Employment type: " ++ (e.employment_type ++ "."))))))))))

/-- The result of `get_collection_stats`. -/
structure CollectionStats where
  total_documents : Nat
  collection_name : String
deriving Repr, DecidableEq

/-- `get_collection_stats` (source lines 292-306): returns `none` when
the collection handle is unset, otherwise the count of all stored
documents and the collection name. -/
def getCollectionStats (st : SystemState) : Option CollectionStats :=
  match st.collection with
  | none => none
  | some cname =>
    match lookupCollection st.client cname with
    | none => none
    | some coll =>
      some { total_documents := (collectionGet coll none).documents.length,
             collection_name := coll.name }

/-- One of the three query operations of the wrapper, with its
arguments. -/
inductive QueryOp where
  | sim (dist : String → String → Nat) (query : String) (nResults : Nat)
      (filters : Option MetaFilter)
  | metaOnly (filters : MetaFilter)
  | stats

/-- The result of one query operation. -/
inductive QueryOut where
  | sim (r : Option QueryResult)
  | metaOnly (r : Option GetResult)
  | stats (r : Option CollectionStats)

/-- The three query operations as state transformers: each returns its
result together with the system state, which they leave untouched — the
corresponding Python methods only read from the store (`collection.query`
and `collection.get` are the sole store calls they make). -/
def runQueryOp (st : SystemState) : QueryOp → QueryOut × SystemState
  | .sim dist query n filters =>
      (.sim (similaritySearch dist st query n filters), st)
  | .metaOnly filters => (.metaOnly (metadataFilterSearch st filters), st)
  | .stats => (.stats (getCollectionStats st), st)

/-- Whether the demo driver ran to completion or returned early. -/
inductive DemoOutcome where
  | aborted
  | completed
deriving Repr, DecidableEq

/-- `run_comprehensive_demo` (source lines 351-434): constructs a fresh
system, attempts initialization, and returns early — cleanly, without
raising — when it fails; otherwise it runs the canned queries (results
are only printed) and completes. -/
def runComprehensiveDemo (b : StoreBehavior)
    (dist : String → String → Nat) : DemoOutcome :=
  let res := initializeCollection b (freshSystem "employee_collection")
  if res.1 then
    let st := res.2
    let _ := getCollectionStats st
    let _ := similaritySearch dist st
      "Python developer with web development experience" 3 none
    let _ := metadataFilterSearch st (.eq "department" (.str "Engineering"))
    .completed
  else .aborted

/-- The system state after one fault-free `initialize_collection` on the
default-constructed system. -/
def stInit : SystemState := (initializeCollection okStore defaultSystem).2

/-- The collection present in `stInit`. -/
def stInitColl : ChromaCollection :=
  { name := "employee_collection", collMeta := employeeCollMeta,
    entries := employeeEntries employeesData }

/-- A concrete (constant) embedding distance, used to instantiate
queries whose ranking is irrelevant. -/
def constDist : String → String → Nat := fun _ _ => 0

/-- The demo filter for employees in California:
location $in [San Francisco, Los Angeles] (source line 394). -/
def locFilterCA : MetaFilter :=
  .inList "location" [.str "San Francisco", .str "Los Angeles"]

/-- The demo filter for employees with at least ten years of experience:
experience $gte 10 (source line 393). -/
def gteTenFilter : MetaFilter := .gte "experience" 10

/-- The demo filter for the Engineering department (source line 392). -/
def engineeringFilter : MetaFilter := .eq "department" (.str "Engineering")

/-! Helper lemmas about the store model and initialization. -/

/-- Every collection surviving the name filter has a different name. -/
lemma filter_ne_not_match (client : ChromaClient) (name : String) :
    ∀ c ∈ client.filter (fun c => c.name ≠ name), c.name ≠ name := by
  intro c hc
  have h := List.of_mem_filter hc
  simpa using h

/-- Bulk insert touches no collection whose name differs. -/
lemma map_update_of_forall_ne (l : List ChromaCollection) (name : String)
    (es : List ChromaEntry) (h : ∀ c ∈ l, c.name ≠ name) :
    l.map (fun c => if c.name = name
      then { c with entries := c.entries ++ es } else c) = l := by
  induction l with
  | nil => rfl
  | cons a t ih =>
    simp only [List.map_cons, List.cons.injEq]
    refine ⟨if_neg (h a (List.mem_cons_self a t)), ?_⟩
    exact ih (fun c hc => h c (List.mem_cons_of_mem a hc))

/-- With a fault-free store the delete step removes every same-named
collection: when one exists it is deleted, and when none exists the
raised not-found error is swallowed, leaving the client unchanged. -/
lemma afterDeleteStep_okStore (client : ChromaClient) (name : String) :
    afterDeleteStep okStore client name
      = client.filter (fun c => c.name ≠ name) := by
  unfold afterDeleteStep deleteCollection okStore
  by_cases h : client.any (fun c => c.name = name) = true
  · simp [h]
  · rw [Bool.not_eq_true] at h
    have hall := List.any_eq_false.mp h
    simp only [h, Bool.false_eq_true, if_false]
    symm
    rw [List.filter_eq_self]
    intro a ha
    simpa using hall a ha

/-- No collection left by the delete step carries the target name, so
creating it afresh cannot collide. -/
lemma any_filter_ne_false (client : ChromaClient) (name : String) :
    (client.filter (fun c => c.name ≠ name)).any
      (fun c => c.name = name) = false := by
  rw [List.any_eq_false]
  intro c hc
  simpa using filter_ne_not_match client name c hc

/-- A fault-free `initialize_collection` succeeds and replaces the store
contents: any same-named collection is removed and one fresh collection
holding exactly the transformed dataset is created. -/
lemma initialize_okStore (st : SystemState) :
    initializeCollection okStore st
      = (true, { st with
          client := st.client.filter (fun c => c.name ≠ st.collection_name)
            ++ [{ name := st.collection_name, collMeta := employeeCollMeta,
                  entries := employeeEntries st.employees_data }],
          collection := some st.collection_name }) := by
  unfold initializeCollection
  rw [afterDeleteStep_okStore]
  unfold createCollection collectionAdd okStore
  simp only [Bool.false_eq_true, if_false, any_filter_ne_false st.client,
    List.map_append]
  rw [map_update_of_forall_ne _ _ _ (filter_ne_not_match st.client st.collection_name)]
  simp

/-- A successful `createCollection` call found no name collision and
appended a fresh empty collection. -/
lemma createCollection_ok (b : StoreBehavior) (client : ChromaClient)
    (name : String) (cm : List (String × String)) (client2 : ChromaClient)
    (h : createCollection b client name cm = .ok client2) :
    (∀ c ∈ client, c.name ≠ name) ∧
    client2 = client ++ [{ name := name, collMeta := cm, entries := [] }] := by
  unfold createCollection at h
  by_cases hb : b.createFails = true
  · simp [hb] at h
  · rw [Bool.not_eq_true] at hb
    by_cases hn : client.any (fun c => c.name = name) = true
    · simp [hb, hn] at h
    · rw [Bool.not_eq_true] at hn
      simp only [hb, hn, Bool.false_eq_true, if_false, Except.ok.injEq] at h
      refine ⟨?_, h.symm⟩
      intro c hc
      have hall := List.any_eq_false.mp hn
      simpa using hall c hc

/-- A successful `collectionAdd` call appended the entries to every
same-named collection. -/
lemma collectionAdd_ok (b : StoreBehavior) (client : ChromaClient)
    (name : String) (es : List ChromaEntry) (client3 : ChromaClient)
    (h : collectionAdd b client name es = .ok client3) :
    client3 = client.map (fun c => if c.name = name
      then { c with entries := c.entries ++ es } else c) := by
  unfold collectionAdd at h
  by_cases hb : b.addFails = true
  · simp [hb] at h
  · rw [Bool.not_eq_true] at hb
    simp only [hb, Bool.false_eq_true, if_false, Except.ok.injEq] at h
    exact h.symm

/-- Whatever the injected faults, a run of `initialize_collection` that
returns `true` leaves the state with the collection handle set and the
store holding, next to collections of other names, exactly one
collection of the configured name whose entries are the transformed
dataset. -/
lemma initialize_true_shape (b : StoreBehavior) (st : SystemState)
    (h : (initializeCollection b st).1 = true) :
    ∃ rest : ChromaClient, (∀ c ∈ rest, c.name ≠ st.collection_name) ∧
      (initializeCollection b st).2
        = { st with
            client := rest
              ++ [{ name := st.collection_name, collMeta := employeeCollMeta,
                    entries := employeeEntries st.employees_data }],
            collection := some st.collection_name } := by
  unfold initializeCollection at h ⊢
  cases hcr : createCollection b (afterDeleteStep b st.client st.collection_name)
      st.collection_name employeeCollMeta with
  | error e => rw [hcr] at h; exact Bool.noConfusion h
  | ok client2 =>
    rw [hcr] at h
    dsimp only at h ⊢
    cases hadd : collectionAdd b client2 st.collection_name
        (employeeEntries st.employees_data) with
    | error e => rw [hadd] at h; exact Bool.noConfusion h
    | ok client3 =>
      dsimp only
      obtain ⟨hnm, rfl⟩ := createCollection_ok b _ _ _ _ hcr
      have h3 := collectionAdd_ok b _ _ _ _ hadd
      refine ⟨afterDeleteStep b st.client st.collection_name, hnm, ?_⟩
      simp only [h3, List.map_append]
      rw [map_update_of_forall_ne _ _ _ hnm]
      simp

/-- Looking a name up past a prefix of differently named collections
finds the appended collection. -/
lemma lookup_append (rest : ChromaClient) (name : String)
    (coll : ChromaCollection) (hrest : ∀ c ∈ rest, c.name ≠ name)
    (hname : coll.name = name) :
    lookupCollection (rest ++ [coll]) name = some coll := by
  unfold lookupCollection
  rw [List.find?_append]
  have hpre : rest.find? (fun c => c.name = name) = none := by
    rw [List.find?_eq_none]
    intro c hc
    simpa using hrest c hc
  rw [hpre, Option.none_or, List.find?_cons_of_pos _ (by simp [hname])]

/-- Looking up the configured name after a replace finds exactly the
fresh collection. -/
lemma lookup_replaced (client : ChromaClient) (name : String)
    (coll : ChromaCollection) (hname : coll.name = name) :
    lookupCollection (client.filter (fun c => c.name ≠ name) ++ [coll]) name
      = some coll :=
  lookup_append _ name coll (filter_ne_not_match client name) hname

/-- `get_collection_stats` after a fault-free initialization reports the
dataset size and the configured collection name. -/
lemma stats_after_init (st : SystemState) :
    getCollectionStats (initializeCollection okStore st).2
      = some { total_documents := st.employees_data.length,
               collection_name := st.collection_name } := by
  rw [initialize_okStore]
  unfold getCollectionStats
  dsimp only
  rw [lookup_replaced st.client st.collection_name _ rfl]
  simp [collectionGet, filterEntries, employeeEntries]

/-- When every matching entry fits within the requested count, the ids a
`collection.query` returns are a permutation of the ids of the matching
entries, whatever the embedding distance. -/
lemma collectionQuery_ids_perm (dist : String → String → Nat)
    (coll : ChromaCollection) (query : String) (n : Nat)
    (filters : Option MetaFilter)
    (h : (filterEntries coll.entries filters).length ≤ n) :
    List.Perm (collectionQuery dist coll query n filters).ids
      ((filterEntries coll.entries filters).map ChromaEntry.id) := by
  unfold collectionQuery
  dsimp only
  rw [List.take_of_length_le (by rw [List.length_insertionSort]; exact h)]
  exact (List.perm_insertionSort _ _).map _

/-- On the initialized default system, `similarity_search` queries the
single stored collection. -/
lemma similaritySearch_stInit (dist : String → String → Nat)
    (query : String) (n : Nat) (filters : Option MetaFilter) :
    similaritySearch dist stInit query n filters
      = some (collectionQuery dist stInitColl query n filters) := rfl

/-- On the initialized default system, `metadata_filter_search` reads the
single stored collection. -/
lemma metadataFilterSearch_stInit (f : MetaFilter) :
    metadataFilterSearch stInit f
      = some (collectionGet stInitColl (some f)) := rfl

/-- A store that raises on the bulk-insert call only. -/
def addFaultStore : StoreBehavior :=
  { deleteFails := false, createFails := false, addFails := true }

/-- A store that raises on the delete call only. -/
def deleteFaultStore : StoreBehavior :=
  { deleteFails := true, createFails := false, addFails := false }

/-! Claim theorems. -/

/-- Claim C1, counterexample: an initialization attempt whose bulk
insert fails returns false — so `initializeCollection` has never
succeeded — yet it has already created the collection and set the
handle, so `collectionStats` returns a present result (the empty count)
and `metadataFilterSearch` returns a present empty result instead of an
absent one. -/
theorem claim_C1_cex :
    (initializeCollection addFaultStore defaultSystem).1 = false ∧
    getCollectionStats (initializeCollection addFaultStore defaultSystem).2
      = some { total_documents := 0,
               collection_name := "employee_collection" } ∧
    (metadataFilterSearch (initializeCollection addFaultStore defaultSystem).2
      engineeringFilter).isSome = true := by decide

/-- Claim C1 as amended: any query operation invoked while the
collection handle is still unset — that is, before any
`initializeCollection` attempt has created the collection — returns an
absent result (`none`) and never raises, for every distance function,
query, limit and filter argument. (An attempt that fails only at the
bulk insert has already set the handle, and later queries then operate
on the empty collection instead of returning `none`.) -/
theorem claim_C1 (st : SystemState) (h : st.collection = none)
    (dist : String → String → Nat) (query : String) (n : Nat)
    (filters : Option MetaFilter) (f : MetaFilter) :
    similaritySearch dist st query n filters = none ∧
    metadataFilterSearch st f = none ∧
    getCollectionStats st = none := by
  unfold similaritySearch metadataFilterSearch getCollectionStats
  rw [h]
  exact ⟨rfl, rfl, rfl⟩

/-- Claim C1, witness: the freshly constructed system has no collection
handle and all three query operations return `none` on it. -/
theorem claim_C1_witness :
    defaultSystem.collection = none ∧
    similaritySearch constDist defaultSystem "q" 5 none = none ∧
    metadataFilterSearch defaultSystem engineeringFilter = none ∧
    getCollectionStats defaultSystem = none :=
  ⟨rfl, claim_C1 defaultSystem rfl constDist "q" 5 none engineeringFilter⟩

/-- Claim C5: document-string generation is a pure deterministic
function of the record — equal records yield equal text — it follows
the fixed template (stated by `specTemplateDocument`, written from the
specification's wording), and the first dataset record employee_1
yields exactly the expected sentence. -/
theorem claim_C5 :
    (∀ e1 e2 : Employee, e1 = e2 → employeeDocument e1 = employeeDocument e2) ∧
    (∀ e : Employee, employeeDocument e = specTemplateDocument e) ∧
    (createEmployeeDocuments employeesData).head?
      = some ("Software Engineer with 5 years of experience in Engineering. "
          ++ "Skills: Python, JavaScript, React, Node.js, databases. "
          ++ "Located in New York. Employment type: Full-time.") := by
  refine ⟨fun e1 e2 h => by rw [h], fun e => ?_, rfl⟩
  unfold employeeDocument specTemplateDocument
  simp [String.append_assoc]

/-- Claim C5, witness: the determinism conjunct applied to the first
dataset record. -/
theorem claim_C5_witness :
    employeeDocument (employeesData.getD 0
        { id := "", name := "", experience := 0, department := "",
          role := "", skills := "", location := "", employment_type := "" })
      = employeeDocument (employeesData.getD 0
        { id := "", name := "", experience := 0, department := "",
          role := "", skills := "", location := "", employment_type := "" }) :=
  claim_C5.1 _ _ rfl

/-- Claim C10: for every employee record the submitted metadata carries
exactly the keys name, department, role, experience, location and
employment_type; the skills and id fields are absent, so no metadata
predicate over skills or id can ever match. -/
theorem claim_C10 (e : Employee) (v : MetaValue) (n : Int)
    (vs : List MetaValue) :
    (employeeMetadata e).map Prod.fst
      = ["name", "department", "role", "experience", "location",
         "employment_type"] ∧
    lookupMeta (employeeMetadata e) "skills" = none ∧
    lookupMeta (employeeMetadata e) "id" = none ∧
    matchesFilter (MetaFilter.eq "skills" v) (employeeMetadata e) = false ∧
    matchesFilter (MetaFilter.gte "id" n) (employeeMetadata e) = false ∧
    matchesFilter (MetaFilter.inList "skills" vs) (employeeMetadata e)
      = false := by
  refine ⟨rfl, rfl, rfl, ?_, rfl, rfl⟩
  simp [matchesFilter, lookupMeta, employeeMetadata, List.find?]

/-- Claim C2, counterexample: after successful initialization, the
location $in [San Francisco, Los Angeles] similarity search (at a
concrete distance function) returns exactly employee_2, employee_4 and
employee_15 — employee_8 is not among them, because the dataset places
employee_8 in New York. -/
theorem claim_C2_cex :
    (similaritySearch constDist stInit "q" 5 (some locFilterCA)).map
      QueryResult.ids
      = some ["employee_2", "employee_4", "employee_15"] ∧
    (employeesData.filter (fun e => e.id = "employee_8")).map
      Employee.location = ["New York"] := by decide

/-- Claim C2 as amended: after successful initialization,
similaritySearch with the location $in filter over San Francisco and Los
Angeles returns, for every embedding distance and query text, exactly
the records employee_2 (Los Angeles), employee_4 and employee_15 (San
Francisco); employee_8 is located in New York and is not returned. -/
theorem claim_C2 (dist : String → String → Nat) (query : String) :
    ∃ r, similaritySearch dist stInit query 5 (some locFilterCA) = some r ∧
      List.Perm r.ids ["employee_2", "employee_4", "employee_15"] := by
  refine ⟨_, similaritySearch_stInit dist query 5 (some locFilterCA), ?_⟩
  have hp := collectionQuery_ids_perm dist stInitColl query 5
    (some locFilterCA) (by decide)
  have he : (filterEntries stInitColl.entries (some locFilterCA)).map
      ChromaEntry.id = ["employee_2", "employee_4", "employee_15"] := by decide
  rw [he] at hp
  exact hp

/-- Claim C3, counterexample: the experience $gte 10 filter matches 6
records — not 7 — namely employee_4, employee_6, employee_8,
employee_10, employee_12 and employee_15; employee_1, which the claimed
Engineering id list contains, has experience 5 and is not returned. -/
theorem claim_C3_cex :
    (similaritySearch constDist stInit "q" 10 (some gteTenFilter)).map
      QueryResult.ids
      = some ["employee_4", "employee_6", "employee_8", "employee_10",
              "employee_12", "employee_15"] ∧
    (employeesData.filter (fun e => e.id = "employee_1")).map
      Employee.experience = [5] ∧
    (employeesData.filter
      (fun e => matchesFilter gteTenFilter (employeeMetadata e))).length
      = 6 := by decide

/-- Claim C3 as amended: after successful initialization, filtering with
experience $gte 10 returns exactly the records of the fixed dataset
whose experience is at least 10 — the 6 records employee_4, employee_6,
employee_8, employee_10, employee_12 and employee_15 (a strict subset of
the 8-element Engineering id list) — via similaritySearch for every
distance function whenever the limit admits at least 6 results, and via
metadataFilterSearch. -/
theorem claim_C3 (dist : String → String → Nat) (query : String) (n : Nat)
    (hn : 6 ≤ n) :
    (∃ r, similaritySearch dist stInit query n (some gteTenFilter) = some r ∧
      List.Perm r.ids ["employee_4", "employee_6", "employee_8",
        "employee_10", "employee_12", "employee_15"]) ∧
    (metadataFilterSearch stInit gteTenFilter).map GetResult.ids
      = some ["employee_4", "employee_6", "employee_8", "employee_10",
              "employee_12", "employee_15"] := by
  constructor
  · refine ⟨_, similaritySearch_stInit dist query n (some gteTenFilter), ?_⟩
    have hlen : (filterEntries stInitColl.entries (some gteTenFilter)).length
        = 6 := by decide
    have hp := collectionQuery_ids_perm dist stInitColl query n
      (some gteTenFilter) (le_trans (le_of_eq hlen) hn)
    have he : (filterEntries stInitColl.entries (some gteTenFilter)).map
        ChromaEntry.id
        = ["employee_4", "employee_6", "employee_8", "employee_10",
           "employee_12", "employee_15"] := by decide
    rw [he] at hp
    exact hp
  · decide

/-- Claim C3, witness: the metadata-only conjunct at the concrete limit
10 and the constant distance. -/
theorem claim_C3_witness :
    (metadataFilterSearch stInit gteTenFilter).map GetResult.ids
      = some ["employee_4", "employee_6", "employee_8", "employee_10",
              "employee_12", "employee_15"] :=
  (claim_C3 constDist "q" 10 (by decide)).2

/-- Claim C4: every `metadata_filter_search` on the initialized default
system returns precisely the ids of the dataset records whose submitted
metadata satisfies the predicate (hence a subset of the fixed record set
consistent with it); for the department = Engineering filter these are
exactly the 8 listed ids. -/
theorem claim_C4 :
    (∀ f r, metadataFilterSearch stInit f = some r →
      r.ids = (employeesData.filter
        (fun e => matchesFilter f (employeeMetadata e))).map Employee.id) ∧
    (metadataFilterSearch stInit engineeringFilter).map GetResult.ids
      = some ["employee_1", "employee_4", "employee_6", "employee_8",
              "employee_10", "employee_12", "employee_14",
              "employee_15"] := by
  constructor
  · intro f r hr
    rw [metadataFilterSearch_stInit f] at hr
    have hr2 := Option.some.inj hr
    rw [← hr2]
    show (filterEntries (employeeEntries employeesData) (some f)).map
      ChromaEntry.id = _
    unfold filterEntries employeeEntries
    dsimp only
    rw [List.filter_map, List.map_map]
    rfl
  · decide

/-- Claim C4, witness: the universal conjunct applied to the Engineering
equality filter and its concrete result. -/
theorem claim_C4_witness :
    (collectionGet stInitColl (some engineeringFilter)).ids
      = (employeesData.filter
          (fun e => matchesFilter engineeringFilter (employeeMetadata e))).map
        Employee.id :=
  claim_C4.1 engineeringFilter (collectionGet stInitColl (some engineeringFilter))
    rfl

/-- Claim C6: a fault-free `initializeCollection` is an idempotent
replace — invoking it twice from any state equals invoking it once — and
each invocation succeeds, removing any same-named collection (absence
not being an error) and installing the full transform of the dataset. -/
theorem claim_C6 (st : SystemState) :
    initializeCollection okStore (initializeCollection okStore st).2
      = initializeCollection okStore st ∧
    (initializeCollection okStore st).1 = true ∧
    (initializeCollection okStore st).2.client
      = st.client.filter (fun c => c.name ≠ st.collection_name)
        ++ [{ name := st.collection_name, collMeta := employeeCollMeta,
              entries := employeeEntries st.employees_data }] := by
  refine ⟨?_, by rw [initialize_okStore], by rw [initialize_okStore]⟩
  rw [initialize_okStore st]
  dsimp only
  rw [initialize_okStore]
  dsimp only
  simp [List.filter_append, List.filter_filter]

/-- Claim C7: after a fault-free `initializeCollection`,
`collectionStats` reports exactly the dataset size — 15 on the fixed
dataset — and the configured collection name, for every configured
name and from every starting state. -/
theorem claim_C7 (cname : String) (st : SystemState) :
    getCollectionStats (initializeCollection okStore (freshSystem cname)).2
      = some { total_documents := 15, collection_name := cname } ∧
    getCollectionStats (initializeCollection okStore st).2
      = some { total_documents := st.employees_data.length,
               collection_name := st.collection_name } :=
  ⟨stats_after_init (freshSystem cname), stats_after_init st⟩

/-- Claim C8, counterexample: a store error raised by the delete call
alone does not make `initializeCollection` return false — the inner
handler swallows every delete error, not only collection-absence, and
initialization proceeds and returns true. -/
theorem claim_C8_cex :
    (initializeCollection deleteFaultStore defaultSystem).1 = true := by
  decide

/-- Claim C8 as amended: `initializeCollection` never raises (it is a
total function into a boolean); starting from a fresh system it returns
true exactly when neither the create call nor the bulk-insert call
fails — errors of the delete call are swallowed, not surfaced — and the
demo driver aborts cleanly exactly when initialization fails. -/
theorem claim_C8 (b : StoreBehavior) (cname : String)
    (dist : String → String → Nat) :
    ((initializeCollection b (freshSystem cname)).1 = true
      ↔ (b.createFails = false ∧ b.addFails = false)) ∧
    (runComprehensiveDemo b dist = DemoOutcome.aborted
      ↔ (b.createFails = true ∨ b.addFails = true)) := by
  obtain ⟨d, c, a⟩ := b
  constructor
  · cases d <;> cases c <;> cases a <;>
      simp [initializeCollection, afterDeleteStep, deleteCollection,
        createCollection, collectionAdd, freshSystem]
  · cases d <;> cases c <;> cases a <;>
      simp [runComprehensiveDemo, initializeCollection, afterDeleteStep,
        deleteCollection, createCollection, collectionAdd, freshSystem]

/-- Claim C9: after every successful `initializeCollection`, whatever
faults were injected, the stored collection holds exactly the 1:1
transform of the dataset — ids, derived documents and metadatas as
parallel lists in dataset order, one triple per record — and the three
query operations return the system state unchanged. -/
theorem claim_C9 (b : StoreBehavior) (st : SystemState)
    (h : (initializeCollection b st).1 = true) :
    (∃ coll, (initializeCollection b st).2.collection
        = some st.collection_name ∧
      lookupCollection (initializeCollection b st).2.client
        st.collection_name = some coll ∧
      coll.entries.map ChromaEntry.id = st.employees_data.map Employee.id ∧
      coll.entries.map ChromaEntry.document
        = createEmployeeDocuments st.employees_data ∧
      coll.entries.map ChromaEntry.metadata
        = st.employees_data.map employeeMetadata ∧
      coll.entries.length = st.employees_data.length) ∧
    (∀ st2 op, (runQueryOp st2 op).2 = st2) := by
  constructor
  · obtain ⟨rest, hnm, hstate⟩ := initialize_true_shape b st h
    refine ⟨{ name := st.collection_name, collMeta := employeeCollMeta,
              entries := employeeEntries st.employees_data },
            ?_, ?_, ?_, ?_, ?_, ?_⟩
    · rw [hstate]
    · rw [hstate]
      exact lookup_append rest st.collection_name _ hnm rfl
    · dsimp only
      unfold employeeEntries
      rw [List.map_map]
      rfl
    · dsimp only
      unfold employeeEntries createEmployeeDocuments
      rw [List.map_map]
      rfl
    · dsimp only
      unfold employeeEntries
      rw [List.map_map]
      rfl
    · dsimp only
      unfold employeeEntries
      rw [List.length_map]
  · intro st2 op
    cases op <;> rfl

/-- Claim C9, witness: the query operations leave the initialized
default system untouched, instantiated at the stats operation. -/
theorem claim_C9_witness :
    (runQueryOp stInit QueryOp.stats).2 = stInit :=
  (claim_C9 okStore defaultSystem (by decide)).2 stInit QueryOp.stats

end EmployeeSearch
